import Mathlib

/-!
Verification of the group-locker bot (`src/index.js`) against its
natural-language specification.

The program is a single-file messenger bot: a session manager with a
reconnect/backoff state machine (`initializeBot`, `startListening`,
`reconnectAndListen`), an event dispatcher (`listenMqtt` callback), a policy
enforcement engine over in-memory lock maps (`lockedGroups`,
`lockedNicknames`), a command processor (`handleMessage` and the per-command
handlers), and an HTTP configuration endpoint (`POST /configure`).

This file shallowly embeds those parts as pure Lean functions.  External
transport calls (send message, set title, change nickname, login, …) are
represented as emitted `Action` values; externally fetched data (the
participant list of a group, the outcome of registering the stream listener,
the random index used to pick a canned reply) are passed in as parameters.
The source file in the repository is truncated after the `off` branch of
`handleNicknameCommand`; the drift-event handlers that the dispatcher calls
(`handleThreadNameChange`, `handleNicknameChange`) are therefore modelled
from the specification, and are marked as such in their doc comments.
-/

namespace HRBot

/-- Outward actions the bot performs through the transport adapter.
`sendFormatted m t` stands for `api.sendMessage(await formatMessage(api,
event, m), t)` — the formatting step is the purely cosmetic stateless wrapper
of the spec (sender-name prefix plus fixed signature block) and carries the
main message `m` unchanged.  `delegate c` stands for awaiting a command
handler whose body is not part of the claims under verification. -/
inductive Action where
  | sendFormatted (mainMessage : String) (threadID : String)
  | setTitle (title : String) (threadID : String)
  | changeNickname (nickname : String) (threadID : String) (userID : String)
  | delegate (command : String)
  deriving DecidableEq, Repr

/-- Association-list lookup: first binding of the key wins, mirroring a JS
object keyed by thread id. -/
def alGet {α : Type} (l : List (String × α)) (k : String) : Option α :=
  match l with
  | [] => none
  | (k', v) :: t => if k' = k then some v else alGet t k

/-- JS `delete obj[k]`: remove every binding of `k`. -/
def alErase {α : Type} (l : List (String × α)) (k : String) : List (String × α) :=
  l.filter (fun p => p.fst ≠ k)

/-- JS `obj[k] = v`: bind `k` to `v`, shadowing any previous binding. -/
def alSet {α : Type} (l : List (String × α)) (k : String) (v : α) : List (String × α) :=
  (k, v) :: alErase l k

/-- The per-group nickname policy object created by `handleNicknameCommand`:
`{ default: null, users: {} }`, with `default` overwritten on lock. -/
structure NickPolicy where
  default : Option String
  users : List (String × String)
  deriving DecidableEq, Repr

/-- The lock-policy portion of the bot's global mutable state:
`lockedGroups` (thread id → locked title) and `lockedNicknames`
(thread id → nickname policy). -/
structure BotState where
  lockedGroups : List (String × String)
  lockedNicknames : List (String × NickPolicy)
  deriving DecidableEq, Repr

/-- An inbound chat message event, with the fields `handleMessage` reads:
`threadID`, `senderID`, `body`, and the keys of `mentions`. -/
structure MsgEvent where
  threadID : String
  senderID : String
  body : String
  mentions : List String
  deriving DecidableEq, Repr

/-- JS `s.toLowerCase()`, character-wise (ASCII case mapping, which covers
every comparison the program performs: all trigger phrases and command names
are lower-case ASCII). -/
def jsToLower (s : String) : String :=
  ⟨s.data.map Char.toLower⟩

/-- Substring containment on character lists. -/
def containsSub (haystack pat : List Char) : Bool :=
  match haystack with
  | [] => pat.isEmpty
  | _ :: t => pat.isPrefixOf haystack || containsSub t pat

/-- JS `haystack.includes(needle)`. -/
def strContains (haystack needle : String) : Bool :=
  containsSub haystack.data needle.data

/-- Leading-whitespace removal on a character list. -/
def dropLeadingWS : List Char → List Char
  | [] => []
  | c :: t => if c.isWhitespace then dropLeadingWS t else c :: t

/-- JS `s.trim()`: strip leading and trailing whitespace. -/
def jsTrim (s : String) : String :=
  ⟨(dropLeadingWS (dropLeadingWS s.data).reverse).reverse⟩

/-- JS `s.startsWith(pat)`. -/
def jsStartsWith (s pat : String) : Bool :=
  pat.data.isPrefixOf s.data

/-- JS `s.slice(n)`: drop the first `n` characters. -/
def jsDrop (s : String) (n : Nat) : String :=
  ⟨s.data.drop n⟩

/-- JS `parts.join(sep)`. -/
def jsJoin (sep : String) : List String → String
  | [] => ""
  | [x] => x
  | x :: xs => x ++ sep ++ jsJoin sep xs

/-- Helper for `splitWS`: accumulate the current token (reversed) while
scanning. -/
def splitWSGo : List Char → List Char → List String
  | [], cur => if cur.isEmpty then [] else [⟨cur.reverse⟩]
  | c :: t, cur =>
      if c = ' ' then
        if cur.isEmpty then splitWSGo t [] else ⟨cur.reverse⟩ :: splitWSGo t []
      else splitWSGo t (c :: cur)

/-- JS `s.split(/ +/)` applied to an already-trimmed string: split on runs of
spaces. -/
def splitWS (s : String) : List String :=
  splitWSGo s.data []

/-- The fixed admin-mention reaction (`abuses` has a single element, so the
random pick is constant). -/
def mentionAbuseReply : String :=
  "ALL HATERS FUCKED BY ME YOYR CMND HAS BEEN ACTIVED☠"

def mkcReply : String := "😈𝗕𝗢𝗟 𝗕𝗢𝗫𝗗𝗜𝗞𝗘 𝗞𝗬𝗔 𝗞𝗔𝗔𝗠 𝗛𝗔𝗜😈"

def teriMaaReply : String :=
  "😜𝗧𝗘𝗥𝗘 𝗦𝗘 𝗖𝗛𝗜𝗡𝗧𝗶  𝗡𝗔𝗛𝗜 𝗖𝗛𝗨𝗗𝗧𝗜 𝗔𝗨𝗥 𝗧𝗨 𝗠𝗔𝗔 𝗖𝗛𝗢𝗗 𝗗𝗘𝗚𝗔😜"

def chutiyaReply : String :=
  "😭𝗧𝗨 𝗖𝗛𝗨𝗧𝗜𝗬𝗔 𝗧𝗘𝗥𝗔 𝗕𝗔𝗔𝗣 𝗖𝗛𝗨𝗧𝗜𝗬𝗔 𝗧𝗘𝗥𝗔 𝗣𝗨𝗥𝗔 𝗞𝗛𝗔𝗡𝗗𝗔𝗡 𝗖𝗛𝗨𝗧𝗜𝗬𝗔 𝗡𝗜𝗞𝗔𝗟 𝗠𝗔𝗗𝗔𝗥𝗫𝗖𝗛𝗢𝗗😭"

def boxdikaReply : String :=
  "🥺𝗟𝗢𝗛𝗘 𝗞𝗔 𝗟𝗨𝗡𝗗 𝗛𝗔𝗜 𝗠𝗘𝗥𝗔 𝗚𝗔𝗥𝗔𝗠 𝗞𝗔𝗥 𝗞𝗘 𝗚𝗔𝗔𝗡𝗗 𝗠𝗔𝗜 𝗗𝗘 𝗗𝗨𝗚𝗔 🥺"

/-- The eight canned responses to a bare "bot" message. -/
def botResponses : List String :=
  [ "😎CHUP KAR BEY KUTYY😂"
  , "😈𝗔𝗕𝗘 𝗕𝗢𝗧 𝗕𝗢𝗧 𝗡𝗔 𝗞𝗔𝗥 𝗧𝗘𝗥𝗜 𝗚𝗔𝗔𝗡𝗗 𝗠𝗔𝗔𝗥 𝗟𝗨𝗚𝗔 𝗠𝗔𝗜😈"
  , "😜𝗕𝗢𝗟 𝗞𝗜𝗦𝗞𝗜 𝗠𝗔𝗔 𝗖𝗛𝗢𝗗𝗡𝗜 𝗛𝗔𝗜😜"
  , "🙈𝗝𝗔𝗬𝗔𝗗𝗔 𝗕𝗢𝗧 𝗕𝗢𝗧 𝗕𝗢𝗟𝗘𝗚𝗔 𝗧𝗢 𝗧𝗘𝗥𝗜 𝗚𝗔𝗔𝗡𝗗 𝗠𝗔𝗜 𝗣𝗘𝗧𝗥𝗢𝗟 𝗗𝗔𝗔𝗟 𝗞𝗘 𝗝𝗔𝗟𝗔 𝗗𝗨𝗚𝗔😬"
  , "😜𝗧𝗘𝗥𝗜 𝗠𝗞𝗖 𝗗𝗢𝗦𝗧😜"
  , "🙊BOT NI TERI BAJI KA YAR HUN DOST🙊"
  , "😈𝗔𝗕𝗘 𝗞𝗔𝗧𝗘 𝗟𝗨𝗡𝗗 𝗞𝗘 𝗞𝗬𝗔 𝗕𝗢𝗧 𝗕𝗢𝗧 𝗞𝗔𝗥 𝗥𝗔 𝗛𝗔𝗜😈"
  , "🥲𝗖𝗛𝗔𝗟 𝗔𝗣𝗡𝗜 𝗞𝗔𝗟𝗜 𝗚𝗔𝗔𝗡𝗗 𝗗𝗜𝗞𝗛𝗔🥲" ]

/-- Section 2 of `handleMessage` ("triggers and small replies"): the
case-insensitive fixed-phrase matcher, tried on every message with a
non-empty body, in source order.  `rand` is the value of
`Math.floor(Math.random() * botResponses.length)` for the bare-"bot" case. -/
def triggerReply (body : String) (rand : Nat) : Option String :=
  let lowerCaseBody := jsToLower body
  if strContains lowerCaseBody "mkc" then some mkcReply
  else if strContains lowerCaseBody "teri maa chod dunga" then some teriMaaReply
  else if strContains lowerCaseBody "chutiya" then some chutiyaReply
  else if strContains lowerCaseBody "boxdika" then some boxdikaReply
  else if jsTrim lowerCaseBody = "bot" then
    some (botResponses.getD (rand % botResponses.length) "")
  else none

def permissionDeniedReply : String := "Permission denied, you are not the admin."

def groupUsageReply : String := "Use correct  Format : /group on <group_name>"

def groupLockedReply : String :=
  "☠ GROUP NAME LOCK HO GAYA HAI GAND TAK ZOR LAGAO AB CHANGE NI HOGA 😂👍"

def groupUnlockedReply : String := "Group name unlocked successfully."

def groupHelpReply : String := "Use /group on <name> or /group off"

/-- The function `handleGroupCommand(api, event, args, isAdmin)`: the `/group` command.
Admin-only.  `on <name>` writes `lockedGroups[threadID] = name` and issues a
`setTitle`; `off` deletes the entry with no corrective action; anything else
replies with usage text. -/
def handleGroupCommand (st : BotState) (threadID : String) (args : List String)
    (isAdmin : Bool) : BotState × List Action :=
  if !isAdmin then
    (st, [.sendFormatted permissionDeniedReply threadID])
  else
    let subCommand := jsToLower (args.headD "")
    let rest := args.tail
    if subCommand = "on" then
      let groupName := jsTrim (jsJoin " " rest)
      if groupName = "" then
        (st, [.sendFormatted groupUsageReply threadID])
      else
        ({ st with lockedGroups := alSet st.lockedGroups threadID groupName },
         [.setTitle groupName threadID, .sendFormatted groupLockedReply threadID])
    else if subCommand = "off" then
      ({ st with lockedGroups := alErase st.lockedGroups threadID },
       [.sendFormatted groupUnlockedReply threadID])
    else
      (st, [.sendFormatted groupHelpReply threadID])

def nicknameUsageReply : String := "Use correct Format : /nickname on <nickname>"

def nicknameLockedReply (nickname : String) : String :=
  "😎 All nicknames locked to: " ++ nickname

/-- Modelled from the spec: the source file is truncated in the middle of the
`off` branch's reply statement, so the exact reply string is unknown; the
spec only requires that deactivation deletes the policy and performs no
corrective action, which does not depend on this text. -/
def nicknameUnlockedReply : String := "Nicknames unlocked."

/-- Modelled from the spec: the tail of `handleNicknameCommand` (its branch
for a sub-command that is neither `on` nor `off`) is missing from the
truncated source; per §4.4 unknown forms degrade to a fixed usage reply with
no state mutation. -/
def nicknameHelpReply : String := "Use /nickname on <nickname> or /nickname off"

/-- The fresh policy object `{ default: null, users: {} }`. -/
def emptyNickPolicy : NickPolicy := { default := none, users := [] }

/-- The policy written by a nickname lock: the existing entry (or a fresh
one) with its `default` field overwritten. -/
def lockPolicyUpdate (old : Option NickPolicy) (nickname : String) : NickPolicy :=
  { (old.getD emptyNickPolicy) with default := some nickname }

/-- The function `handleNicknameCommand(api, event, args, isAdmin)`: the `/nickname`
command.  Admin-only.  `on <nickname>` writes the group's default nickname
policy (preserving any per-user overrides already present) and renames every
current participant except the admin; `off` deletes the policy entry.
`participants` is the `participantIDs` list fetched from
`api.getThreadInfo(threadID)`. -/
def handleNicknameCommand (st : BotState) (participants : List String)
    (adminID : String) (threadID : String) (args : List String)
    (isAdmin : Bool) : BotState × List Action :=
  if !isAdmin then
    (st, [.sendFormatted permissionDeniedReply threadID])
  else
    let subCommand := jsToLower (args.headD "")
    let rest := args.tail
    if subCommand = "on" then
      let nickname := jsTrim (jsJoin " " rest)
      if nickname = "" then
        (st, [.sendFormatted nicknameUsageReply threadID])
      else
        let pol0 := (alGet st.lockedNicknames threadID).getD emptyNickPolicy
        let pol := { pol0 with default := some nickname }
        let renames := (participants.filter (fun pid => pid ≠ adminID)).map
          (fun pid => Action.changeNickname nickname threadID pid)
        ({ st with lockedNicknames := alSet st.lockedNicknames threadID pol },
         renames ++ [.sendFormatted (nicknameLockedReply nickname) threadID])
    else if subCommand = "off" then
      ({ st with lockedNicknames := alErase st.lockedNicknames threadID },
       [.sendFormatted nicknameUnlockedReply threadID])
    else
      (st, [.sendFormatted nicknameHelpReply threadID])

def unknownCommandNonAdminReply : String :=
  "Teri ma ki ch.. tere baap ka nokar nahi hu randi ke!"

def unknownCommandAdminReply (pfx : String) : String :=
  "Ye h mera prefix " ++ pfx ++
    " ko prefix ho use lgake bole ye h mera prefix or Chikna mera boss h ab bol mdrxhod kya kam h tujhe mujhse bsdike"

/-- The commands of the `switch` in `handleMessage` whose handlers lie in the
truncated (absent) tail of the source file and are touched by no claim; their
invocation is recorded as a `delegate` action. -/
def delegatedCommands : List String :=
  ["botnick", "fyt", "stop", "target", "help", "photolock", "gclock",
   "gcremove", "nicklock", "nickremoveall", "nickremoveoff", "status"]

/-- Section 3 of `handleMessage`: strip the prefix, split the remainder on
runs of spaces, case-fold the first token, and dispatch on it. -/
def execCommand (pfx adminID : String) (st : BotState) (participants : List String)
    (ev : MsgEvent) : BotState × List Action :=
  let isAdmin := ev.senderID = adminID
  let args := splitWS (jsTrim (jsDrop ev.body pfx.length))
  let command := jsToLower (args.headD "")
  let rest := args.tail
  if command = "group" then
    handleGroupCommand st ev.threadID rest isAdmin
  else if command = "nickname" then
    handleNicknameCommand st participants adminID ev.threadID rest isAdmin
  else if command = "tid" then
    (st, [.sendFormatted ("Group ID: " ++ ev.threadID) ev.threadID])
  else if command = "uid" then
    match ev.mentions with
    | mentionedID :: _ => (st, [.sendFormatted ("User ID: " ++ mentionedID) ev.threadID])
    | [] => (st, [.sendFormatted ("Your ID: " ++ ev.senderID) ev.threadID])
  else if delegatedCommands.contains command then
    (st, [.delegate command])
  else if isAdmin then
    (st, [.sendFormatted (unknownCommandAdminReply pfx) ev.threadID])
  else
    (st, [.sendFormatted unknownCommandNonAdminReply ev.threadID])

/-- The function `handleMessage(api, event)`: (1) if the mention keys include the admin id,
send the fixed mention reaction and return; (2) otherwise consult the
fixed-phrase matcher on the (non-empty) body and, on a match, send that canned
reply and return; (3) otherwise, if the body starts with the prefix, parse and
dispatch the command; a non-prefixed body produces nothing. -/
def handleMessage (pfx adminID : String) (rand : Nat) (st : BotState)
    (participants : List String) (ev : MsgEvent) : BotState × List Action :=
  if ev.mentions.contains adminID then
    (st, [.sendFormatted mentionAbuseReply ev.threadID])
  else
    match (if ev.body = "" then none else triggerReply ev.body rand) with
    | some r => (st, [.sendFormatted r ev.threadID])
    | none =>
      if ev.body = "" ∨ jsStartsWith ev.body pfx = false then (st, [])
      else execCommand pfx adminID st participants ev

/-- Modelled from the spec: `handleThreadNameChange` is called by the
dispatcher (`log:thread-name` events) but its body lies in the truncated tail
of the source file.  Per §4.3: on a `THREAD_RENAMED` event, if a locked title
exists for the group and the new title differs from it, issue one rename
action restoring the locked title; no-op if no policy or the title already
matches. -/
def handleThreadNameChange (lockedGroups : List (String × String))
    (threadID newTitle : String) : List Action :=
  match alGet lockedGroups threadID with
  | some lockedTitle =>
      if newTitle ≠ lockedTitle then [.setTitle lockedTitle threadID] else []
  | none => []

/-- Modelled from the spec: `handleNicknameChange` is called by the dispatcher
(`log:user-nickname` events) but its body lies in the truncated tail of the
source file.  Per §4.3: on a `MEMBER_RENAMED` event, if a nickname policy
exists for the group and the member is not the admin, and the new nickname
differs from the policy's effective nickname for that member (override if
present, else the default), issue one rename action restoring it. -/
def handleNicknameChange (lockedNicknames : List (String × NickPolicy))
    (adminID threadID userID newNickname : String) : List Action :=
  match alGet lockedNicknames threadID with
  | some pol =>
      if userID = adminID then []
      else
        match (alGet pol.users userID).orElse (fun _ => pol.default) with
        | some effective =>
            if newNickname ≠ effective then
              [.changeNickname effective threadID userID]
            else []
        | none => []
  | none => []

/-!  Session manager and reconnect state machine. -/

/-- The session-manager state the reconnect logic reads and writes:
`reconnectAttempt` (the attempt counter), `hasAPI` (whether `botAPI` is
non-null, i.e. a session handle exists), and `creds` (the `currentCookies`
last-known-good credential blob, kept opaque as a string). -/
structure ConnState where
  reconnectAttempt : Nat
  hasAPI : Bool
  creds : String
  deriving DecidableEq, Repr

/-- What `reconnectAndListen` schedules after incrementing the counter. -/
inductive ReconnectOutcome where
  /-- via `setTimeout(..., 5000)` then `startListening(botAPI)`: restart the
  listener on the same session handle after the fixed delay (time units of
  one second; the delay argument records 5). -/
  | restartSameHandle (delay : Nat)
  /-- via `setTimeout(..., 5000)` then `initializeBot(...)` because `botAPI` is
  null. -/
  | delayedLogin (delay : Nat)
  /-- counter exceeded 5: `initializeBot(currentCookies, prefix, adminID)` —
  a full re-login with the last-known-good credentials. -/
  | relogin (creds : String)
  deriving DecidableEq, Repr

/-- The synchronous entry of `initializeBot(cookies, newPrefix, newAdminID)`:
`currentCookies = cookies || currentCookies` and `reconnectAttempt = 0`
(line 85), before the asynchronous login callback runs. -/
def initializeBot (st : ConnState) (cookies : Option String) : ConnState :=
  { st with creds := (cookies.getD st.creds), reconnectAttempt := 0 }

/-- The function `reconnectAndListen()`: increment `reconnectAttempt`; if it now exceeds 5,
run `initializeBot` with the current cookies (which resets the counter);
otherwise schedule, after a 5-second delay, a listener restart on the same
handle (or a login when no handle exists). -/
def reconnectAndListen (st : ConnState) : ConnState × ReconnectOutcome :=
  let st1 := { st with reconnectAttempt := st.reconnectAttempt + 1 }
  if st1.reconnectAttempt > 5 then
    (initializeBot st1 (some st1.creds), .relogin st1.creds)
  else if st1.hasAPI then
    (st1, .restartSameHandle 5)
  else
    (st1, .delayedLogin 5)

/-- Outcome of one call to `startListening(api)`. -/
inductive StartOutcome where
  /-- the handle `api` was null or had no `listenMqtt`: log and return. -/
  | invalidApi
  /-- the call `listenMqtt` registered and "Listener started." was logged. -/
  | listening
  /-- the call `listenMqtt` threw synchronously: the catch block runs
  `reconnectAndListen`. -/
  | failedThenReconnect (o : ReconnectOutcome)
  deriving DecidableEq, Repr

/-- The function `startListening(api)`: validate the handle, register the stream callback
(`registerOk` is whether `api.listenMqtt` returned without throwing), and log.
Note that no branch touches `reconnectAttempt` except the catch block, which
delegates to `reconnectAndListen`. -/
def startListening (st : ConnState) (registerOk : Bool) : ConnState × StartOutcome :=
  if !st.hasAPI then
    (st, .invalidApi)
  else if registerOk then
    (st, .listening)
  else
    let (st1, o) := reconnectAndListen st
    (st1, .failedThenReconnect o)

/-- Iterating `n` consecutive listener errors: iterate `reconnectAndListen`, collecting
the scheduled outcomes in order. -/
def errTrace (st : ConnState) : Nat → ConnState × List ReconnectOutcome
  | 0 => (st, [])
  | n + 1 =>
      let (st1, o) := reconnectAndListen st
      let (st2, os) := errTrace st1 n
      (st2, o :: os)

/-!  Event dispatcher. -/

/-- An event as delivered by `listenMqtt`, with the two fields the dispatcher
reads: `type` and `logMessageType`. -/
structure RawEvent where
  type : String
  logMessageType : Option String
  deriving DecidableEq, Repr

/-- The handler families the dispatcher routes to. -/
inductive HandlerKind where
  | message
  | threadName
  | userNickname
  | threadImage
  | subscribe
  deriving DecidableEq, Repr

/-- The `if`/`else if` classification inside the `listenMqtt` callback. -/
def classify (ev : RawEvent) : Option HandlerKind :=
  if ev.type = "message" ∨ ev.type = "message_reply" then some .message
  else if ev.logMessageType = some "log:thread-name" then some .threadName
  else if ev.logMessageType = some "log:user-nickname" then some .userNickname
  else if ev.logMessageType = some "log:thread-image" then some .threadImage
  else if ev.logMessageType = some "log:subscribe" then some .subscribe
  else none

/-- What one invocation of the `listenMqtt` callback does. -/
inductive StepOutcome where
  /-- the `err` branch: log the listener error and call
  `reconnectAndListen()` — the stream error reaches the reconnect policy. -/
  | invokeReconnect
  /-- a recognised event whose handler returned normally. -/
  | processed
  /-- the handler threw: caught by the surrounding `try`, logged with the
  event's `type`, and the callback returns normally (stream continues). -/
  | crashLogged (logLine : String)
  /-- an event matching no branch of the classification: silently skipped. -/
  | ignoredEvent
  deriving DecidableEq, Repr

/-- One delivery from the stream: either a transport-level error or an event. -/
inductive StreamInput where
  | err (msg : String)
  | event (ev : RawEvent)
  deriving DecidableEq, Repr

/-- The `listenMqtt` callback.  `run k ev` is the outcome of awaiting the
handler of kind `k` on `ev` (`Except.error e` models the handler throwing
`e`). -/
def dispatchStep (run : HandlerKind → RawEvent → Except String Unit)
    (inp : StreamInput) : StepOutcome :=
  match inp with
  | .err _ => .invokeReconnect
  | .event ev =>
      match classify ev with
      | none => .ignoredEvent
      | some k =>
          match run k ev with
          | .ok _ => .processed
          | .error e =>
              .crashLogged ("❌ Handler crashed: " ++ e ++ ". Event type: " ++ ev.type)

/-- The stream keeps invoking the callback once per delivery, in order. -/
def listenLoop (run : HandlerKind → RawEvent → Except String Unit)
    (inputs : List StreamInput) : List StepOutcome :=
  inputs.map (dispatchStep run)

/-!  HTTP configuration endpoint. -/

/-- The globals `POST /configure` reads and writes, plus effect counters:
`fileWrites` counts `fs.writeFileSync('config.json', ...)` calls and
`botStarts` counts `initializeBot` invocations from this endpoint. -/
structure WebState where
  pfx : String
  adminID : Option String
  fileWrites : Nat
  botStarts : Nat
  deriving DecidableEq, Repr

/-- Result of `JSON.parse(req.body.cookies)`. -/
inductive CookiesJson where
  /-- parsed to an array with these items (kept opaque as strings). -/
  | arr (items : List String)
  /-- parsed to a non-array value. -/
  | notArr
  /-- the call `JSON.parse` threw (malformed JSON or missing field). -/
  | parseError
  deriving DecidableEq, Repr

/-- A `POST /configure` request body: the `cookies` string's parse result and
the optional `prefix` and `adminID` form fields (`none` models an absent
field, i.e. `undefined`). -/
structure ConfigureReq where
  cookies : CookiesJson
  reqPfx : Option String
  reqAdminID : Option String
  deriving DecidableEq, Repr

/-- The HTTP response sent back. -/
inductive HttpResponse where
  | ok (msg : String)
  | badRequest (msg : String)
  deriving DecidableEq, Repr

def invalidCookiesMsg : String :=
  "Error: Invalid cookies format. Please provide a valid JSON array of cookies."

def adminRequiredMsg : String := "Error: Admin ID is required."

def configSuccessMsg : String := "Bot configured successfully! Starting..."

def invalidConfigMsg : String :=
  "Error: Invalid configuration. Please check your input."

/-- Lines 249–250: `prefix = req.body.prefix || '/'; adminID =
req.body.adminID;` — executed right after the parse, before any validation
(`||` takes the default on an absent or empty field). -/
def assignGlobals (st : WebState) (req : ConfigureReq) : WebState :=
  { st with
    pfx := match req.reqPfx with
           | some p => if p = "" then "/" else p
           | none => "/"
    adminID := req.reqAdminID }

/-- The `POST /configure` handler: parse the cookies, overwrite the global
prefix and admin id, validate (non-empty array, truthy admin id), and on
success persist `config.json`, reply, and start the bot; a thrown parse error
lands in the catch block's 400. -/
def postConfigure (st : WebState) (req : ConfigureReq) : WebState × HttpResponse :=
  match req.cookies with
  | .parseError => (st, .badRequest invalidConfigMsg)
  | .notArr =>
      let st1 := assignGlobals st req
      (st1, .badRequest invalidCookiesMsg)
  | .arr items =>
      let st1 := assignGlobals st req
      if items.isEmpty then
        (st1, .badRequest invalidCookiesMsg)
      else if (st1.adminID.getD "") = "" then
        (st1, .badRequest adminRequiredMsg)
      else
        ({ st1 with fileWrites := st1.fileWrites + 1, botStarts := st1.botStarts + 1 },
         .ok configSuccessMsg)

/-!  Association-list lemmas shared by the theorems below. -/

theorem alErase_cons {α : Type} (p : String × α) (t : List (String × α)) (k : String) :
    alErase (p :: t) k = if p.fst = k then alErase t k else p :: alErase t k := by
  by_cases h : p.fst = k <;> simp [alErase, List.filter_cons, h]

theorem alGet_alErase_self {α : Type} (l : List (String × α)) (k : String) :
    alGet (alErase l k) k = none := by
  induction l with
  | nil => rfl
  | cons p t ih =>
      rw [alErase_cons]
      by_cases h : p.fst = k
      · rw [if_pos h]; exact ih
      · rw [if_neg h]; simp [alGet, h, ih]

theorem alGet_alErase_ne {α : Type} (l : List (String × α)) (k k' : String)
    (h : k' ≠ k) : alGet (alErase l k) k' = alGet l k' := by
  induction l with
  | nil => rfl
  | cons p t ih =>
      rw [alErase_cons]
      by_cases hp : p.fst = k
      · rw [if_pos hp, ih]
        have hne : p.fst ≠ k' := by rw [hp]; exact Ne.symm h
        simp [alGet, hne]
      · rw [if_neg hp]
        by_cases hk' : p.fst = k'
        · simp [alGet, hk']
        · simp [alGet, hk', ih]

theorem alGet_alSet_self {α : Type} (l : List (String × α)) (k : String) (v : α) :
    alGet (alSet l k v) k = some v := by
  simp [alSet, alGet]

/-!  Claim theorems. -/

/-- C1: for a group with an active title lock, a `THREAD_RENAMED` event whose
new title differs from the locked value causes exactly one corrective rename
restoring the locked title; an event carrying the locked title itself, or one
for a group with no title policy, causes zero corrective actions. -/
theorem titleLock_enforcement (lockedGroups : List (String × String))
    (threadID newTitle lockedTitle : String) :
    (alGet lockedGroups threadID = some lockedTitle → newTitle ≠ lockedTitle →
       handleThreadNameChange lockedGroups threadID newTitle
         = [.setTitle lockedTitle threadID])
    ∧ (alGet lockedGroups threadID = some lockedTitle → newTitle = lockedTitle →
       handleThreadNameChange lockedGroups threadID newTitle = [])
    ∧ (alGet lockedGroups threadID = none →
       handleThreadNameChange lockedGroups threadID newTitle = []) := by
  refine ⟨fun h1 h2 => ?_, fun h1 h2 => ?_, fun h1 => ?_⟩
  · simp [handleThreadNameChange, h1, h2]
  · simp [handleThreadNameChange, h1, h2]
  · simp [handleThreadNameChange, h1]

/-- Witness for C1 at a concrete locked group. -/
theorem titleLock_enforcement_witness :
    handleThreadNameChange [("T1", "Club")] "T1" "Hacked" = [.setTitle "Club" "T1"]
    ∧ handleThreadNameChange [("T1", "Club")] "T1" "Club" = []
    ∧ handleThreadNameChange [("Other", "Club")] "T1" "Hacked" = [] :=
  ⟨(titleLock_enforcement [("T1", "Club")] "T1" "Hacked" "Club").1 (by decide) (by decide),
   (titleLock_enforcement [("T1", "Club")] "T1" "Club" "Club").2.1 (by decide) rfl,
   (titleLock_enforcement [("Other", "Club")] "T1" "Hacked" "Club").2.2 (by decide)⟩

/-- C6: an admin-only command (group lock on/off, nickname lock on/off)
invoked with `isAdmin = false` (the sender id differs from the admin id)
produces exactly the fixed permission-denial reply and leaves the whole
policy state unchanged, whatever the arguments. -/
theorem nonAdmin_denied (st : BotState) (participants : List String)
    (adminID threadID : String) (args : List String) :
    handleGroupCommand st threadID args false
      = (st, [.sendFormatted permissionDeniedReply threadID])
    ∧ handleNicknameCommand st participants adminID threadID args false
      = (st, [.sendFormatted permissionDeniedReply threadID]) :=
  ⟨rfl, rfl⟩

/-- C10: a message whose mention keys include the admin id is answered with
the fixed mention reaction and nothing else: state unchanged, the phrase
matcher and all command processing skipped. -/
theorem adminMention_shortCircuit (pfx adminID : String) (rand : Nat)
    (st : BotState) (participants : List String) (ev : MsgEvent)
    (hm : ev.mentions.contains adminID = true) :
    handleMessage pfx adminID rand st participants ev
      = (st, [.sendFormatted mentionAbuseReply ev.threadID]) := by
  have hmem : adminID ∈ ev.mentions := by simpa using hm
  simp [handleMessage, hmem]

/-- Witness for C10: a prefixed `uid` command mentioning the admin gets the
mention reaction, not the command's reply. -/
theorem adminMention_shortCircuit_witness :
    handleMessage "/" "A" 0 ⟨[], []⟩ [] ⟨"T", "S", "/uid", ["A"]⟩
      = (⟨[], []⟩, [.sendFormatted mentionAbuseReply "T"]) :=
  adminMention_shortCircuit "/" "A" 0 ⟨[], []⟩ [] ⟨"T", "S", "/uid", ["A"]⟩ (by decide)

/-- C2: every listener error increments the attempt counter; while the
incremented counter is at most 5 the listener is restarted on the same
session handle after the fixed 5-second delay; the error that takes the
counter above 5 triggers a full re-login with the last-known-good
credentials, resetting the counter to zero; and from a zero counter six
consecutive errors give five same-handle restarts followed by one re-login. -/
theorem reconnect_two_tier (st : ConnState) (h : st.hasAPI = true) :
    (st.reconnectAttempt + 1 ≤ 5 →
       reconnectAndListen st
         = ({ st with reconnectAttempt := st.reconnectAttempt + 1 },
            .restartSameHandle 5))
    ∧ (st.reconnectAttempt + 1 > 5 →
       reconnectAndListen st
         = ({ st with reconnectAttempt := 0 }, .relogin st.creds))
    ∧ (st.reconnectAttempt = 0 →
       errTrace st 6
         = ({ st with reconnectAttempt := 0 },
            [.restartSameHandle 5, .restartSameHandle 5, .restartSameHandle 5,
             .restartSameHandle 5, .restartSameHandle 5, .relogin st.creds])) := by
  obtain ⟨a, api, c⟩ := st
  simp only at h
  subst h
  refine ⟨fun hle => ?_, fun hgt => ?_, fun h0 => ?_⟩
  · simp [reconnectAndListen, Nat.not_lt.mpr hle]
  · simp [reconnectAndListen, initializeBot, hgt]
  · simp only at h0
    subst h0
    rfl

/-- Witness for C2: six consecutive listener errors starting from a fresh
counter. -/
theorem reconnect_two_tier_witness :
    errTrace ⟨0, true, "cookieBlob"⟩ 6
      = (⟨0, true, "cookieBlob"⟩,
         [.restartSameHandle 5, .restartSameHandle 5, .restartSameHandle 5,
          .restartSameHandle 5, .restartSameHandle 5, .relogin "cookieBlob"]) :=
  (reconnect_two_tier ⟨0, true, "cookieBlob"⟩ rfl).2.2 rfl

/-- C3 counterexample: the claim says the attempt counter is reset to zero on
every successful listener start.  In the code only `initializeBot` resets it:
after a same-handle restart that starts the listener successfully (state with
counter 2), the counter is still 2, and the next listener error observes 3,
not 1. -/
theorem listenerStart_noReset_counterexample :
    startListening ⟨2, true, "c"⟩ true = (⟨2, true, "c"⟩, .listening)
    ∧ (startListening ⟨2, true, "c"⟩ true).1.reconnectAttempt ≠ 0
    ∧ (reconnectAndListen (startListening ⟨2, true, "c"⟩ true).1).1.reconnectAttempt
        = 3 := by
  refine ⟨rfl, ?_, rfl⟩
  decide

/-- C3 amended: a successful listener start leaves the session-manager state
(in particular the attempt counter) unchanged; the counter is reset to zero
exactly by `initializeBot`, i.e. on the full (re-)login path. -/
theorem counter_reset_only_on_login (st : ConnState) (cookies : Option String) :
    (startListening st true).1 = st
    ∧ (initializeBot st cookies).reconnectAttempt = 0 := by
  constructor
  · by_cases hb : st.hasAPI <;> simp [startListening, hb]
  · rfl

/-- C4: `/nickname on <nickname>` issued by the admin with a non-empty
nickname writes that nickname as the group's default nickname policy
(preserving existing per-user overrides) and performs one corrective pass
renaming every current participant except the admin to it; with an empty
argument it only replies with the usage message and writes no policy. -/
theorem nicknameLockOn_spec (st : BotState) (participants : List String)
    (adminID threadID nickname : String) (rest : List String)
    (hn : nickname = jsTrim (jsJoin " " rest)) :
    (nickname ≠ "" →
       handleNicknameCommand st participants adminID threadID ("on" :: rest) true
         = ({ st with lockedNicknames := alSet st.lockedNicknames threadID (lockPolicyUpdate (alGet st.lockedNicknames threadID) nickname) },
            ((participants.filter (fun pid => pid ≠ adminID)).map
               (fun pid => Action.changeNickname nickname threadID pid))
              ++ [.sendFormatted (nicknameLockedReply nickname) threadID])
       ∧ alGet (handleNicknameCommand st participants adminID threadID
                  ("on" :: rest) true).1.lockedNicknames threadID
           = some (lockPolicyUpdate (alGet st.lockedNicknames threadID) nickname))
    ∧ (nickname = "" →
       handleNicknameCommand st participants adminID threadID ("on" :: rest) true
         = (st, [.sendFormatted nicknameUsageReply threadID])) := by
  have hcmd : jsToLower "on" = "on" := by decide
  subst hn
  constructor
  · intro hne
    have heq : handleNicknameCommand st participants adminID threadID
        ("on" :: rest) true
        = ({ st with lockedNicknames := alSet st.lockedNicknames threadID (lockPolicyUpdate (alGet st.lockedNicknames threadID) (jsTrim (jsJoin " " rest))) },
           ((participants.filter (fun pid => pid ≠ adminID)).map
              (fun pid => Action.changeNickname (jsTrim (jsJoin " " rest))
                threadID pid))
             ++ [.sendFormatted (nicknameLockedReply (jsTrim (jsJoin " " rest)))
                   threadID]) := by
      simp [handleNicknameCommand, lockPolicyUpdate, hcmd, hne]
    exact ⟨heq, by rw [heq]; exact alGet_alSet_self _ _ _⟩
  · intro hz
    simp [handleNicknameCommand, hcmd, hz]

/-- Witness for C4: locking nicknames to "Locked" in a three-member group
whose admin is "A", and the empty-argument case. -/
theorem nicknameLockOn_witness :
    handleNicknameCommand ⟨[], []⟩ ["A", "B", "C"] "A" "T" ["on", "Locked"] true
      = (⟨[], [("T", { default := some "Locked", users := [] })]⟩,
         [.changeNickname "Locked" "T" "B", .changeNickname "Locked" "T" "C",
          .sendFormatted (nicknameLockedReply "Locked") "T"])
    ∧ handleNicknameCommand ⟨[], []⟩ ["A", "B", "C"] "A" "T" ["on"] true
      = (⟨[], []⟩, [.sendFormatted nicknameUsageReply "T"]) :=
  ⟨((nicknameLockOn_spec ⟨[], []⟩ ["A", "B", "C"] "A" "T" "Locked" ["Locked"]
      (by decide)).1 (by decide)).1,
   (nicknameLockOn_spec ⟨[], []⟩ ["A", "B", "C"] "A" "T" "" []
      (by decide)).2 rfl⟩

/-- C5: the admin `off` command for the title lock (resp. the nickname lock)
deletes exactly that policy entry and emits only a confirmation message — no
corrective action; afterwards a drift event for that field in that group
triggers zero corrective actions; every other policy entry, and the other
lock map, are untouched. -/
theorem unlock_no_enforcement (st : BotState) (participants : List String)
    (adminID threadID newTitle userID newNickname : String) :
    (handleGroupCommand st threadID ["off"] true
       = ({ st with lockedGroups := alErase st.lockedGroups threadID },
          [.sendFormatted groupUnlockedReply threadID]))
    ∧ handleThreadNameChange (alErase st.lockedGroups threadID) threadID newTitle = []
    ∧ (handleNicknameCommand st participants adminID threadID ["off"] true
       = ({ st with lockedNicknames := alErase st.lockedNicknames threadID },
          [.sendFormatted nicknameUnlockedReply threadID]))
    ∧ handleNicknameChange (alErase st.lockedNicknames threadID) adminID threadID
        userID newNickname = []
    ∧ (∀ k, k ≠ threadID →
        alGet (alErase st.lockedGroups threadID) k = alGet st.lockedGroups k)
    ∧ (∀ k, k ≠ threadID →
        alGet (alErase st.lockedNicknames threadID) k = alGet st.lockedNicknames k) := by
  have hoff : jsToLower "off" = "off" := by decide
  have hoffon : ¬ (jsToLower "off" = "on") := by decide
  refine ⟨?_, ?_, ?_, ?_, fun k hk => alGet_alErase_ne _ _ _ hk,
          fun k hk => alGet_alErase_ne _ _ _ hk⟩
  · simp [handleGroupCommand, hoff, hoffon]
  · simp [handleThreadNameChange, alGet_alErase_self]
  · simp [handleNicknameCommand, hoff, hoffon]
  · simp [handleNicknameChange, alGet_alErase_self]

/-- Witness for C5: unlocking thread "T" leaves the entry for "U" alone and a
subsequent rename drift on "T" is ignored. -/
theorem unlock_no_enforcement_witness :
    handleGroupCommand ⟨[("T", "Club"), ("U", "Other")], []⟩ "T" ["off"] true
      = (⟨[("U", "Other")], []⟩, [.sendFormatted groupUnlockedReply "T"])
    ∧ handleThreadNameChange (alErase [("T", "Club"), ("U", "Other")] "T") "T" "Hacked2" = []
    ∧ alGet (alErase [("T", "Club"), ("U", "Other")] "T") "U"
        = alGet [("T", "Club"), ("U", "Other")] "U" :=
  ⟨(unlock_no_enforcement ⟨[("T", "Club"), ("U", "Other")], []⟩ [] "A" "T" "Hacked2" "u" "n").1,
   (unlock_no_enforcement ⟨[("T", "Club"), ("U", "Other")], []⟩ [] "A" "T" "Hacked2" "u" "n").2.1,
   (unlock_no_enforcement ⟨[("T", "Club"), ("U", "Other")], []⟩ [] "A" "T" "Hacked2" "u" "n").2.2.2.2.1
     "U" (by decide)⟩

/-- C7 counterexample: the message "/mkc" starts with the configured prefix
"/", yet it is answered by the canned-phrase matcher (which the code consults
before the prefix check) and is not processed as a command — its result
differs from the command dispatch's result. -/
theorem prefixedPhrase_counterexample :
    jsStartsWith "/mkc" "/" = true
    ∧ handleMessage "/" "A" 0 ⟨[], []⟩ [] ⟨"T", "S", "/mkc", []⟩
        = (⟨[], []⟩, [.sendFormatted mkcReply "T"])
    ∧ handleMessage "/" "A" 0 ⟨[], []⟩ [] ⟨"T", "S", "/mkc", []⟩
        ≠ execCommand "/" "A" ⟨[], []⟩ [] ⟨"T", "S", "/mkc", []⟩ := by
  refine ⟨rfl, rfl, ?_⟩
  decide

/-- C7 amended: for a message that does not mention the admin, the
fixed-phrase matcher is consulted first; a matched phrase is answered by the
canned reply even when the text starts with the prefix; only when no phrase
matches is prefixed text processed as a command (remainder split on runs of
spaces, first token case-folded selecting the handler, as `execCommand`
does), and non-prefixed unmatched text produces nothing. -/
theorem message_routing (pfx adminID : String) (rand : Nat) (st : BotState)
    (participants : List String) (ev : MsgEvent)
    (hm : ev.mentions.contains adminID = false) :
    (∀ r, triggerReply ev.body rand = some r → ev.body ≠ "" →
       handleMessage pfx adminID rand st participants ev
         = (st, [.sendFormatted r ev.threadID]))
    ∧ (triggerReply ev.body rand = none → ev.body ≠ "" →
       jsStartsWith ev.body pfx = true →
       handleMessage pfx adminID rand st participants ev
         = execCommand pfx adminID st participants ev)
    ∧ (triggerReply ev.body rand = none → jsStartsWith ev.body pfx = false →
       handleMessage pfx adminID rand st participants ev = (st, [])) := by
  have hmem : adminID ∉ ev.mentions := by simpa using hm
  refine ⟨fun r htr hne => ?_, fun htr hne hpre => ?_, fun htr hpre => ?_⟩
  · simp [handleMessage, hmem, hne, htr]
  · simp [handleMessage, hmem, hne, htr, hpre]
  · by_cases hne : ev.body = ""
    · simp [handleMessage, hmem, hne]
    · simp [handleMessage, hmem, hne, htr, hpre]

/-- Witness for C7's amended routing: "/tid" matches no phrase and is
dispatched as a command; "hello" matches nothing and gets no reply. -/
theorem message_routing_witness :
    handleMessage "/" "A" 0 ⟨[], []⟩ [] ⟨"T", "S", "/tid", []⟩
      = execCommand "/" "A" ⟨[], []⟩ [] ⟨"T", "S", "/tid", []⟩
    ∧ handleMessage "/" "A" 0 ⟨[], []⟩ [] ⟨"T", "S", "hello", []⟩
      = (⟨[], []⟩, []) :=
  ⟨(message_routing "/" "A" 0 ⟨[], []⟩ [] ⟨"T", "S", "/tid", []⟩ (by decide)).2.1
     (by decide) (by decide) (by decide),
   (message_routing "/" "A" 0 ⟨[], []⟩ [] ⟨"T", "S", "hello", []⟩ (by decide)).2.2
     (by decide) (by decide)⟩

/-- C8: a handler that throws is caught at the dispatcher boundary and its
failure is logged together with the event's kind, without reaching the
reconnect path, and the stream goes on processing the surrounding deliveries;
a transport-level stream error, by contrast, is routed to the reconnect
policy. -/
theorem dispatcher_isolation (run : HandlerKind → RawEvent → Except String Unit)
    (ev : RawEvent) (k : HandlerKind) (e m : String)
    (pre post : List StreamInput) :
    dispatchStep run (.err m) = .invokeReconnect
    ∧ (classify ev = some k → run k ev = .error e →
       dispatchStep run (.event ev)
         = .crashLogged ("❌ Handler crashed: " ++ e ++ ". Event type: " ++ ev.type)
       ∧ dispatchStep run (.event ev) ≠ .invokeReconnect)
    ∧ listenLoop run (pre ++ .event ev :: post)
        = listenLoop run pre ++ dispatchStep run (.event ev) :: listenLoop run post := by
  refine ⟨rfl, fun hc hr => ?_, by simp [listenLoop]⟩
  constructor
  · simp [dispatchStep, hc, hr]
  · simp [dispatchStep, hc, hr]

/-- Witness for C8: a message event whose handler throws "boom". -/
theorem dispatcher_isolation_witness :
    dispatchStep (fun _ _ => Except.error "boom") (.event ⟨"message", none⟩)
      = .crashLogged "❌ Handler crashed: boom. Event type: message"
    ∧ dispatchStep (fun _ _ => Except.error "boom") (.event ⟨"message", none⟩)
      ≠ .invokeReconnect :=
  (dispatcher_isolation (fun _ _ => Except.error "boom") ⟨"message", none⟩
     .message "boom" "m" [] []).2.1 (by decide) rfl

/-- C9 counterexample: a request with an empty cookies array and a fresh
admin id gets the 400 response, yet the global prefix and admin identifier do
not remain what they were before the request — they are overwritten before
validation. -/
theorem configure_stateClobber_counterexample :
    (postConfigure ⟨"/", some "OLD", 0, 0⟩ ⟨.arr [], some "!", some "NEW"⟩).2
      = .badRequest invalidCookiesMsg
    ∧ (postConfigure ⟨"/", some "OLD", 0, 0⟩ ⟨.arr [], some "!", some "NEW"⟩).1.adminID
      ≠ some "OLD"
    ∧ (postConfigure ⟨"/", some "OLD", 0, 0⟩ ⟨.arr [], some "!", some "NEW"⟩).1.pfx
      ≠ "/" := by
  refine ⟨rfl, ?_, ?_⟩ <;> decide

/-- C9 amended: every validation failure (unparseable cookies, non-array
cookies, empty cookies array, absent/empty admin id) yields a 400 response
with a human-readable message, writes no configuration file and starts no
session; but whenever the cookies string parses at all, the operating prefix
and admin identifier have already been overwritten from the request; only the
unparseable-cookies case leaves the state fully unchanged. -/
theorem configure_validation (st : WebState) (req : ConfigureReq) :
    (req.cookies = .parseError →
       postConfigure st req = (st, .badRequest invalidConfigMsg))
    ∧ (req.cookies = .notArr →
       postConfigure st req = (assignGlobals st req, .badRequest invalidCookiesMsg))
    ∧ (∀ items, req.cookies = .arr items → items = [] →
       postConfigure st req = (assignGlobals st req, .badRequest invalidCookiesMsg))
    ∧ (∀ items, req.cookies = .arr items → items ≠ [] → req.reqAdminID.getD "" = "" →
       postConfigure st req = (assignGlobals st req, .badRequest adminRequiredMsg))
    ∧ (assignGlobals st req).fileWrites = st.fileWrites
    ∧ (assignGlobals st req).botStarts = st.botStarts := by
  refine ⟨fun hp => ?_, fun hp => ?_, fun items hp hz => ?_,
          fun items hp hnz hadm => ?_, rfl, rfl⟩
  · simp [postConfigure, hp]
  · simp [postConfigure, hp]
  · simp [postConfigure, hp, hz]
  · simp [postConfigure, hp, hnz, assignGlobals, hadm]

/-- Witness for C9's amended statement: an empty cookies array with a present
admin id is rejected without a file write or session start. -/
theorem configure_validation_witness :
    postConfigure ⟨"/", some "OLD", 3, 4⟩ ⟨.arr [], some "!", some "NEW"⟩
      = (assignGlobals ⟨"/", some "OLD", 3, 4⟩ ⟨.arr [], some "!", some "NEW"⟩,
         .badRequest invalidCookiesMsg)
    ∧ (assignGlobals ⟨"/", some "OLD", 3, 4⟩ ⟨.arr [], some "!", some "NEW"⟩).fileWrites = 3 :=
  ⟨(configure_validation ⟨"/", some "OLD", 3, 4⟩ ⟨.arr [], some "!", some "NEW"⟩).2.2.1
     [] rfl rfl,
   (configure_validation ⟨"/", some "OLD", 3, 4⟩ ⟨.arr [], some "!", some "NEW"⟩).2.2.2.2.1⟩

end HRBot
